import Mathlib

/-!
Shallow embedding of the bundling orchestrator of `rust.aws-cdk-lambda`
(`src/lib/bundling.ts`): the process-wide cached probe of `cargo lambda`
availability, the container-vs-host strategy selection performed by the
`Bundling` constructor, and the local `tryBundle` executor.

JavaScript objects used as environment maps are embedded as functions
`String → Option String`; the object spread `\x7b...a, ...b\x7d` becomes
`jsSpread a b`.  The `Bundling` class constructor becomes the pure function
`mkBundling`, which takes the current value of the static field
`Bundling.runsLocally` (the process-wide cache) and the result the probe
`getCargoLambdaVersion()` would return, and yields the constructed object
together with the new value of the static field.  The closure
`local.tryBundle` becomes the function `tryBundle`, parameterised by the value
of the static cache at call time and by the behaviour of `spawnSync`.

`Settings.BUILD_ENVIRONMENT` (from `index.ts`, an external collaborator) is
passed in as the parameter `defaults`.
-/

namespace RustCdkLambda

/-- A JavaScript object holding environment variables, viewed as a key-value
map. -/
abbrev Env : Type := String → Option String

/-- A one-binding environment, for concrete test inputs. -/
def envSingle (key val : String) : Env :=
  fun q => if q = key then some val else none

/-- The empty environment. -/
def envEmpty : Env := fun _ => none

/-- JavaScript object spread `\x7b ...a, ...b \x7d`: every key of either
object is present, and a key present in `b` takes `b`'s value. -/
def jsSpread (a b : Env) : Env := fun k =>
  match b k with
  | some v => some v
  | none => a k

/-- The fields of `BundlingProps` (src/lib/bundling.ts) that the orchestrator
reads.  `buildEnvironment` and `forcedDockerBundling` are optional in the
TypeScript interface, hence `Option`. -/
structure BundlingProps where
  buildEnvironment : Option Env
  forcedDockerBundling : Option Bool
  entry : String
  bin : Option String
  target : String

/-- The two ways `bundling.ts` obtains a `cdk.DockerImage`:
`cdk.DockerImage.fromBuild(path, options)` (with `options.platform` recorded,
`none` when the options omit it) and `cdk.DockerImage.fromRegistry(name)`. -/
inductive DockerImage where
  | fromBuild (contextPath : String) (platform : Option String)
  | fromRegistry (name : String)
deriving DecidableEq

/-- `AssetStaging.BUNDLING_INPUT_DIR` from aws-cdk-lib. -/
def bundlingInputDir : String := "/asset-input"

/-- `AssetStaging.BUNDLING_OUTPUT_DIR` from aws-cdk-lib. -/
def bundlingOutputDir : String := "/asset-output"

/-- The Docker build context handed to `cdk.DockerImage.fromBuild`:
`path.join(__dirname, '../lib')`, i.e. the package's `lib` directory. -/
def dockerBuildContext : String := "../lib"

/-- Modelled from the spec: step 2 of the Command Builder
(`createBuildCommand` lives in `src/lib/build.ts`, which is not under
`src/`).  The build-tool invocation carries an explicit target triple, an
explicit output directory, and the binary name exactly when one was
supplied. -/
def buildToolInvocation (bin : Option String) (target : String)
    (outDir : String) : String :=
  "cargo lambda build --release --target " ++ target
    ++ (match bin with
        | some b => " --bin " ++ b
        | none => "")
    ++ " --lambda-dir " ++ outDir

/-- Modelled from the spec: the divergent host-family shell lead-in of the
Command Builder's step 1 (`src/lib/build.ts` is not under `src/`).  The spec
fixes only that the `win32` host family uses a divergent quoting/argument
convention, not the lead-in's text; any nonempty marker represents it. -/
def winShellLead : String := "win32-shell-lead && "

/-- Modelled from the spec: `createBuildCommand` of `src/lib/build.ts`
(not under `src/`).  Maps the target-platform tag to a shell lead-in — none
for the containerized tag `linux`, native POSIX semantics (no lead-in) for
the `darwin` host, the divergent lead-in for the `win32` host family — then
composes the single build-tool command string; an unsupported tag is a
ConfigurationError. -/
def createBuildCommand (entry : String) (bin : Option String)
    (target : String) (outDir : String) (targetPlatform : String) :
    Except String String :=
  if targetPlatform = "linux" then
    Except.ok (buildToolInvocation bin target outDir)
  else if targetPlatform = "darwin" then
    Except.ok (buildToolInvocation bin target outDir)
  else if targetPlatform = "win32" then
    Except.ok (winShellLead ++ buildToolInvocation bin target outDir)
  else
    Except.error ("ConfigurationError: unsupported target platform: "
      ++ targetPlatform)

/-- `Bundling.runsLocally = Bundling.runsLocally ?? getCargoLambdaVersion()
?? false` (bundling.ts line 123).  Given the cache (the static field before
the assignment) and the version the probe would report, returns the boolean
the static field is set to, paired with whether the probe actually ran:
`??` short-circuits, so a populated cache is returned untouched and
`getCargoLambdaVersion()` is never invoked. -/
def resolveRunsLocally : Option Bool → Option String → Bool × Bool
  | some b, _ => (b, false)
  | none, probe => (probe.isSome, true)

/-- `props.forcedDockerBundling || !Bundling.runsLocally` (bundling.ts
line 131); an absent `forcedDockerBundling` is falsy. -/
def shouldBuildImage (props : BundlingProps) (runsLocally : Bool) : Bool :=
  props.forcedDockerBundling.getD false || !runsLocally

/-- `props.buildEnvironment || Settings.BUILD_ENVIRONMENT` (bundling.ts
line 127): a supplied object — even an empty one — is truthy and is taken
whole; the defaults are consulted only when the caller supplied none. -/
def inputEnv (defaults : Env) (props : BundlingProps) : Env :=
  match props.buildEnvironment with
  | some e => e
  | none => defaults

/-- The public fields the `Bundling` constructor sets.  `localOffered`
records whether `this.local` was assigned (the `if (!props.forcedDockerBundling)`
guard); the behaviour of the assigned closure is `tryBundle` below. -/
structure Bundling where
  image : DockerImage
  command : List String
  environment : Env
  user : String
  localOffered : Bool

/-- `this.command` (bundling.ts lines 139-149): always
`['bash', '-c', createBuildCommand(\x7b..., targetPlatform: 'linux'\x7d)]`
with the staging input/output directories.  The `linux` tag is always
supported, so the `Except` never carries an error here. -/
def containerCommand (props : BundlingProps) : List String :=
  ["bash", "-c",
    (createBuildCommand bundlingInputDir props.bin props.target
      bundlingOutputDir "linux").toOption.getD ""]

/-- The `Bundling` constructor (bundling.ts lines 122-193) as a pure
function: takes the defaults collaborator, the static cache
`Bundling.runsLocally` before construction and the probe's would-be answer,
and the props; returns the constructed object and the static cache after
construction. -/
def mkBundling (defaults : Env) (cache : Option Bool) (probe : Option String)
    (props : BundlingProps) : Bundling × Option Bool :=
  let runsLocally := (resolveRunsLocally cache probe).1
  let b : Bundling :=
    { image :=
        if shouldBuildImage props runsLocally then
          DockerImage.fromBuild dockerBuildContext none
        else
          DockerImage.fromRegistry "dummy"
      command := containerCommand props
      environment := inputEnv defaults props
      user := "root"
      localOffered := !props.forcedDockerBundling.getD false }
  (b, some runsLocally)

/-- The static cache across a sequence of constructions: fold `mkBundling`'s
cache update over the probe answers the successive constructions would see. -/
def constructSeq (defaults : Env) (props : BundlingProps)
    (cache : Option Bool) (probes : List (Option String)) : Option Bool :=
  probes.foldl (fun c p => (mkBundling defaults c p props).2) cache

/-- The argument record of a `spawnSync` call (bundling.ts lines 172-183). -/
structure SpawnCall where
  program : String
  args : List String
  env : Env
  cwd : String
  windowsVerbatimArguments : Bool

/-- What `spawnSync` reports back: exit status and captured standard error. -/
structure SpawnResult where
  status : Int
  stderr : String

/-- How a `tryBundle` call ends: returns `false` (declined), returns `true`
(succeeded), kills the process via `process.exit(code)`, or propagates the
Command Builder's ConfigurationError. -/
inductive TryOutcome where
  | declined
  | succeeded
  | fatalExit (code : Nat)
  | configError (msg : String)
deriving DecidableEq

/-- One `tryBundle` run: its outcome, the strings written to the diagnostic
channel (standard error), and the spawn it performed, if any. -/
structure TryBundleTrace where
  outcome : TryOutcome
  diagnostics : List String
  spawned : Option SpawnCall

/-- The diagnostic of bundling.ts line 160. -/
def localDiagnostic : String :=
  "cargo lambda cannot run locally. Switching to Docker bundling.\n"

/-- The diagnostic of bundling.ts line 186. -/
def fatalDiagnostic : String := "💥  Run `cargo lambda` errored."

/-- The `spawnSync` invocation of bundling.ts lines 172-183: `cmd` with `/c`
and verbatim arguments on `win32`, `bash` with `-c` elsewhere; the whole
build command occupies the single remaining argument slot; the environment is
the ambient process environment spread under the build environment. -/
def hostSpawnCall (osPlatform : String) (props : BundlingProps)
    (buildEnv ambient : Env) (buildCommand : String) : SpawnCall :=
  { program := if osPlatform = "win32" then "cmd" else "bash"
    args := [if osPlatform = "win32" then "/c" else "-c", buildCommand]
    env := jsSpread ambient buildEnv
    cwd := props.entry
    windowsVerbatimArguments := osPlatform == "win32" }

/-- The `local.tryBundle` closure (bundling.ts lines 158-190) as a function
of the static cache's value at call time, the captured construction context
(`osPlatform`, `props`, `inputEnv`), the ambient `process.env`, the requested
output directory, and the behaviour of `spawnSync`. -/
def tryBundle (runsLocally : Bool) (osPlatform : String)
    (props : BundlingProps) (buildEnv ambient : Env) (outDir : String)
    (spawn : SpawnCall → SpawnResult) : TryBundleTrace :=
  if runsLocally = false then
    { outcome := TryOutcome.declined
      diagnostics := [localDiagnostic]
      spawned := none }
  else
    match createBuildCommand props.entry props.bin props.target outDir
        osPlatform with
    | Except.error msg =>
      { outcome := TryOutcome.configError msg
        diagnostics := []
        spawned := none }
    | Except.ok buildCommand =>
      let call := hostSpawnCall osPlatform props buildEnv ambient buildCommand
      let res := spawn call
      if res.status ≠ 0 then
        { outcome := TryOutcome.fatalExit 1
          diagnostics := [res.stderr.trim, fatalDiagnostic]
          spawned := some call }
      else
        { outcome := TryOutcome.succeeded
          diagnostics := []
          spawned := some call }

/-! Concrete inputs used by counterexamples and witnesses. -/

/-- A process-wide default build environment with one binding. -/
def wDefaults : Env := envSingle "DEF_KEY" "def-val"

/-- A caller-supplied build environment with one binding, disjoint from
`wDefaults`. -/
def wOverrides : Env := envSingle "OVR_KEY" "ovr-val"

/-- Props with caller-supplied build environment and no forced Docker
bundling. -/
def wProps : BundlingProps :=
  { buildEnvironment := some wOverrides
    forcedDockerBundling := none
    entry := "/proj"
    bin := some "handler"
    target := "aarch64-unknown-linux-gnu" }

/-- Props forcing Docker bundling. -/
def wForcedProps : BundlingProps :=
  { buildEnvironment := none
    forcedDockerBundling := some true
    entry := "/proj"
    bin := none
    target := "aarch64-unknown-linux-gnu" }

/-- A `spawnSync` behaviour that always succeeds. -/
def wSpawnOk : SpawnCall → SpawnResult := fun _ => ⟨0, ""⟩

/-- A `spawnSync` behaviour that always fails with captured standard
error. -/
def wSpawnFail : SpawnCall → SpawnResult := fun _ => ⟨1, "  build exploded  "⟩

/-! Claims. -/

/-- C1, as stated, is false on the code: with a caller-supplied build
environment binding only `OVR_KEY` and process-wide defaults binding only
`DEF_KEY`, the environment the constructor hands to the subprocess/container
drops the defaults' key entirely — the two maps are not merged. -/
theorem c1_counterexample :
    wOverrides "OVR_KEY" = some "ovr-val" ∧
    wDefaults "DEF_KEY" = some "def-val" ∧
    (mkBundling wDefaults (some true) none wProps).1.environment "OVR_KEY"
      = some "ovr-val" ∧
    (mkBundling wDefaults (some true) none wProps).1.environment "DEF_KEY"
      = none := by
  refine ⟨by decide, by decide, by decide, by decide⟩

/-- C1 (amended): the build environment handed to the subprocess/container
is the caller-supplied override object when one is supplied, and the
process-wide defaults only otherwise; the two are never merged key by
key. -/
theorem c1_env_selection (defaults : Env) (cache : Option Bool)
    (probe : Option String) (props : BundlingProps) :
    (mkBundling defaults cache probe props).1.environment =
      match props.buildEnvironment with
      | some e => e
      | none => defaults := rfl

/-- C2: with `forcedDockerBundling = true`, the constructor requests a
container image build (with no platform pinned) and produces no local
bundling option, regardless of the cached availability. -/
theorem c2_forced_docker (defaults : Env) (cache : Option Bool)
    (probe : Option String) (props : BundlingProps)
    (h : props.forcedDockerBundling = some true) :
    (mkBundling defaults cache probe props).1.image
      = DockerImage.fromBuild dockerBuildContext none ∧
    (mkBundling defaults cache probe props).1.localOffered = false := by
  simp [mkBundling, shouldBuildImage, h]

/-- Witness for C2 at a concrete input. -/
theorem c2_witness :
    wForcedProps.forcedDockerBundling = some true ∧
    (mkBundling wDefaults none none wForcedProps).1.image
      = DockerImage.fromBuild dockerBuildContext none ∧
    (mkBundling wDefaults none none wForcedProps).1.localOffered = false :=
  ⟨rfl, c2_forced_docker wDefaults none none wForcedProps rfl⟩

/-- C3: with `forcedDockerBundling` false or absent and the availability
cache resolved to unavailable, the constructor requests the container image
build, still offers the local option, and that local attempt declines
(returns `false`) instead of running on the host. -/
theorem c3_unavailable_goes_container (defaults : Env) (cache : Option Bool)
    (probe : Option String) (props : BundlingProps)
    (osPlatform outDir : String) (buildEnv ambient : Env)
    (spawn : SpawnCall → SpawnResult)
    (hf : props.forcedDockerBundling.getD false = false)
    (hr : (resolveRunsLocally cache probe).1 = false) :
    (mkBundling defaults cache probe props).1.image
      = DockerImage.fromBuild dockerBuildContext none ∧
    (mkBundling defaults cache probe props).1.localOffered = true ∧
    (tryBundle (resolveRunsLocally cache probe).1 osPlatform props buildEnv
        ambient outDir spawn).outcome = TryOutcome.declined := by
  refine ⟨?_, ?_, ?_⟩
  · simp [mkBundling, shouldBuildImage, hr]
  · simp [mkBundling, hf]
  · rw [hr]
    rfl

/-- Witness for C3 at a concrete input. -/
theorem c3_witness :
    wProps.forcedDockerBundling.getD false = false ∧
    (resolveRunsLocally (some false) none).1 = false ∧
    ((mkBundling wDefaults (some false) none wProps).1.image
      = DockerImage.fromBuild dockerBuildContext none ∧
    (mkBundling wDefaults (some false) none wProps).1.localOffered = true ∧
    (tryBundle (resolveRunsLocally (some false) none).1 "linux" wProps
        wOverrides wDefaults "/out" wSpawnOk).outcome
      = TryOutcome.declined) :=
  ⟨rfl, rfl, c3_unavailable_goes_container wDefaults (some false) none wProps
    "linux" "/out" wOverrides wDefaults wSpawnOk rfl rfl⟩

/-- C4: once the static cache `Bundling.runsLocally` holds a boolean, the
`?\x3f`-chain returns it unchanged without running the probe, the
construction writes the same boolean back, and any sequence of later
constructions — whatever their probes would answer — leaves the cache at
that boolean. -/
theorem c4_cache_stable (defaults : Env) (props : BundlingProps) (b : Bool)
    (probe : Option String) (probes : List (Option String)) :
    resolveRunsLocally (some b) probe = (b, false) ∧
    (mkBundling defaults (some b) probe props).2 = some b ∧
    constructSeq defaults props (some b) probes = some b := by
  refine ⟨rfl, rfl, ?_⟩
  induction probes with
  | nil => rfl
  | cons p ps ih => exact ih

/-- C5: when the cached availability is `false` at local execution time,
`tryBundle` writes the switch-to-Docker diagnostic to standard error,
spawns nothing, and returns `false` so that bundling falls back to the
container. -/
theorem c5_unavailable_declines (osPlatform : String) (props : BundlingProps)
    (buildEnv ambient : Env) (outDir : String)
    (spawn : SpawnCall → SpawnResult) :
    tryBundle false osPlatform props buildEnv ambient outDir spawn =
      { outcome := TryOutcome.declined
        diagnostics := [localDiagnostic]
        spawned := none } := rfl

/-- The command string the Command Builder yields for `wProps` on the
containerized tag. -/
def wCmd : String :=
  buildToolInvocation (some "handler") "aarch64-unknown-linux-gnu" "/out"

/-- The command string the Command Builder yields for `wProps` on the
`win32` host tag. -/
def wCmdWin : String :=
  winShellLead
    ++ buildToolInvocation (some "handler") "aarch64-unknown-linux-gnu" "/out"

/-- C6: whenever the spawned build subprocess exits with nonzero status,
`tryBundle` writes the captured (trimmed) standard error to the diagnostic
channel and ends in the fatal `process.exit(1)`; it never returns
success. -/
theorem c6_nonzero_exit_fatal (osPlatform outDir cmd : String)
    (props : BundlingProps) (buildEnv ambient : Env)
    (spawn : SpawnCall → SpawnResult)
    (hcmd : createBuildCommand props.entry props.bin props.target outDir
      osPlatform = Except.ok cmd)
    (hst : (spawn (hostSpawnCall osPlatform props buildEnv ambient
      cmd)).status ≠ 0) :
    (tryBundle true osPlatform props buildEnv ambient outDir spawn).outcome
      = TryOutcome.fatalExit 1 ∧
    (tryBundle true osPlatform props buildEnv ambient outDir spawn).outcome
      ≠ TryOutcome.succeeded ∧
    (spawn (hostSpawnCall osPlatform props buildEnv ambient
        cmd)).stderr.trim
      ∈ (tryBundle true osPlatform props buildEnv ambient outDir
          spawn).diagnostics := by
  simp [tryBundle, hcmd, hst]

/-- Witness for C6 at a concrete input. -/
theorem c6_witness :
    createBuildCommand wProps.entry wProps.bin wProps.target "/out" "linux"
      = Except.ok wCmd ∧
    (wSpawnFail (hostSpawnCall "linux" wProps wOverrides wDefaults
      wCmd)).status ≠ 0 ∧
    ((tryBundle true "linux" wProps wOverrides wDefaults "/out"
        wSpawnFail).outcome = TryOutcome.fatalExit 1 ∧
      (tryBundle true "linux" wProps wOverrides wDefaults "/out"
        wSpawnFail).outcome ≠ TryOutcome.succeeded ∧
      (wSpawnFail (hostSpawnCall "linux" wProps wOverrides wDefaults
          wCmd)).stderr.trim
        ∈ (tryBundle true "linux" wProps wOverrides wDefaults "/out"
            wSpawnFail).diagnostics) :=
  ⟨rfl, by decide,
    c6_nonzero_exit_fatal "linux" "/out" wCmd wProps wOverrides wDefaults
      wSpawnFail rfl (by decide)⟩

/-- C7: the environment handed to the host subprocess is the ambient
process environment with the build environment spread on top, each binding
passed unmodified; the environment handed to the container is the build
environment itself, unmodified. -/
theorem c7_env_verbatim (defaults : Env) (cache : Option Bool)
    (probe : Option String) (osPlatform outDir cmd : String)
    (props : BundlingProps) (buildEnv ambient : Env)
    (spawn : SpawnCall → SpawnResult) (k : String)
    (hcmd : createBuildCommand props.entry props.bin props.target outDir
      osPlatform = Except.ok cmd) :
    (tryBundle true osPlatform props buildEnv ambient outDir spawn).spawned
      = some (hostSpawnCall osPlatform props buildEnv ambient cmd) ∧
    (hostSpawnCall osPlatform props buildEnv ambient cmd).env k
      = (match buildEnv k with
         | some v => some v
         | none => ambient k) ∧
    (mkBundling defaults cache probe props).1.environment
      = inputEnv defaults props := by
  refine ⟨?_, rfl, rfl⟩
  by_cases hs : (spawn (hostSpawnCall osPlatform props buildEnv ambient
      cmd)).status = 0
  · simp [tryBundle, hcmd, hs]
  · simp [tryBundle, hcmd, hs]

/-- Witness for C7 at a concrete input. -/
theorem c7_witness :
    createBuildCommand wProps.entry wProps.bin wProps.target "/out" "linux"
      = Except.ok wCmd ∧
    ((tryBundle true "linux" wProps wOverrides wDefaults "/out"
        wSpawnOk).spawned
      = some (hostSpawnCall "linux" wProps wOverrides wDefaults wCmd) ∧
    (hostSpawnCall "linux" wProps wOverrides wDefaults wCmd).env "OVR_KEY"
      = (match wOverrides "OVR_KEY" with
         | some v => some v
         | none => wDefaults "OVR_KEY") ∧
    (mkBundling wDefaults (some true) none wProps).1.environment
      = inputEnv wDefaults wProps) :=
  ⟨rfl,
    c7_env_verbatim wDefaults (some true) none "linux" "/out" wCmd wProps
      wOverrides wDefaults wSpawnOk "OVR_KEY" rfl⟩

/-- C8: on the containerized path, any requested image build pins no
platform (it targets the invoking host's native platform), and the
in-container command is always built with the fixed containerized tag
`linux`, whose command string is the bare build-tool invocation with no
host-specific shell lead-in. -/
theorem c8_container_native_platform (defaults : Env) (cache : Option Bool)
    (probe : Option String) (props : BundlingProps) :
    ((mkBundling defaults cache probe props).1.image
        = DockerImage.fromBuild dockerBuildContext none ∨
      (mkBundling defaults cache probe props).1.image
        = DockerImage.fromRegistry "dummy") ∧
    createBuildCommand bundlingInputDir props.bin props.target
        bundlingOutputDir "linux"
      = Except.ok (buildToolInvocation props.bin props.target
          bundlingOutputDir) ∧
    (mkBundling defaults cache probe props).1.command
      = ["bash", "-c",
          buildToolInvocation props.bin props.target bundlingOutputDir] := by
  refine ⟨?_, rfl, rfl⟩
  cases hsb : shouldBuildImage props (resolveRunsLocally cache probe).1
  · right
    simp [mkBundling, hsb]
  · left
    simp [mkBundling, hsb]

/-- C9: the built command is handed to the shell as one single string in
the last argument slot, never pre-split; on the `win32` host family the
spawn uses `cmd` with `/c` and verbatim argument quoting, on every other
host `bash` with `-c`. -/
theorem c9_single_string_shell (osPlatform outDir cmd : String)
    (props : BundlingProps) (buildEnv ambient : Env)
    (spawn : SpawnCall → SpawnResult)
    (hcmd : createBuildCommand props.entry props.bin props.target outDir
      osPlatform = Except.ok cmd) :
    (tryBundle true osPlatform props buildEnv ambient outDir spawn).spawned
      = some (hostSpawnCall osPlatform props buildEnv ambient cmd) ∧
    (hostSpawnCall osPlatform props buildEnv ambient cmd).args
      = [if osPlatform = "win32" then "/c" else "-c", cmd] ∧
    (hostSpawnCall osPlatform props buildEnv ambient cmd).program
      = (if osPlatform = "win32" then "cmd" else "bash") ∧
    ((hostSpawnCall osPlatform props buildEnv ambient
        cmd).windowsVerbatimArguments = true ↔ osPlatform = "win32") := by
  refine ⟨?_, rfl, rfl, ?_⟩
  · by_cases hs : (spawn (hostSpawnCall osPlatform props buildEnv ambient
        cmd)).status = 0
    · simp [tryBundle, hcmd, hs]
    · simp [tryBundle, hcmd, hs]
  · simp [hostSpawnCall]

/-- Witness for C9 at a concrete `win32` input. -/
theorem c9_witness :
    createBuildCommand wProps.entry wProps.bin wProps.target "/out" "win32"
      = Except.ok wCmdWin ∧
    ((tryBundle true "win32" wProps wOverrides wDefaults "/out"
        wSpawnOk).spawned
      = some (hostSpawnCall "win32" wProps wOverrides wDefaults wCmdWin) ∧
    (hostSpawnCall "win32" wProps wOverrides wDefaults wCmdWin).args
      = [if "win32" = "win32" then "/c" else "-c", wCmdWin] ∧
    (hostSpawnCall "win32" wProps wOverrides wDefaults wCmdWin).program
      = (if "win32" = "win32" then "cmd" else "bash") ∧
    ((hostSpawnCall "win32" wProps wOverrides wDefaults
        wCmdWin).windowsVerbatimArguments = true ↔ "win32" = "win32")) :=
  ⟨rfl,
    c9_single_string_shell "win32" "/out" wCmdWin wProps wOverrides
      wDefaults wSpawnOk rfl⟩

/-- C10: with `forcedDockerBundling` false or absent and the cached
availability true, no image build is requested — the image is only the
registry reference `dummy` — the local option is offered, and the local
attempt never declines, so the placeholder image is never fallen back
to. -/
theorem c10_dummy_placeholder (defaults : Env) (cache : Option Bool)
    (probe : Option String) (props : BundlingProps)
    (osPlatform outDir : String) (buildEnv ambient : Env)
    (spawn : SpawnCall → SpawnResult)
    (hf : props.forcedDockerBundling.getD false = false)
    (hr : (resolveRunsLocally cache probe).1 = true) :
    (mkBundling defaults cache probe props).1.image
      = DockerImage.fromRegistry "dummy" ∧
    (mkBundling defaults cache probe props).1.localOffered = true ∧
    (tryBundle (resolveRunsLocally cache probe).1 osPlatform props buildEnv
        ambient outDir spawn).outcome ≠ TryOutcome.declined := by
  refine ⟨?_, ?_, ?_⟩
  · simp [mkBundling, shouldBuildImage, hf, hr]
  · simp [mkBundling, hf]
  · rw [hr]
    cases hc : createBuildCommand props.entry props.bin props.target outDir
        osPlatform with
    | error msg => simp [tryBundle, hc]
    | ok c =>
      by_cases hs : (spawn (hostSpawnCall osPlatform props buildEnv ambient
          c)).status = 0
      · simp [tryBundle, hc, hs]
      · simp [tryBundle, hc, hs]

/-- Witness for C10 at a concrete input. -/
theorem c10_witness :
    wProps.forcedDockerBundling.getD false = false ∧
    (resolveRunsLocally (some true) none).1 = true ∧
    ((mkBundling wDefaults (some true) none wProps).1.image
      = DockerImage.fromRegistry "dummy" ∧
    (mkBundling wDefaults (some true) none wProps).1.localOffered = true ∧
    (tryBundle (resolveRunsLocally (some true) none).1 "linux" wProps
        wOverrides wDefaults "/out" wSpawnOk).outcome
      ≠ TryOutcome.declined) :=
  ⟨rfl, rfl,
    c10_dummy_placeholder wDefaults (some true) none wProps "linux" "/out"
      wOverrides wDefaults wSpawnOk rfl rfl⟩

end RustCdkLambda
